import Mathlib

/-!
# Verification of the AFL Fantasy Manager pricing, DVP and consolidation code

Shallow embedding of the numeric routines of the repository:

* `src/afl_complete_processor.py` — `calculate_price_change`, `calculate_disposals`
* `src/correct_breakeven_formula.py` — `calculate_breakeven_score`,
  `calculate_price_change_from_breakeven`
* `src/attached_assets/dvp_analysis_1760666088962.py` — `create_dvp_team_ratings`,
  `calculate_player_dvp_ratings`
* `src/scrapers/create_master_stats.py` — `merge_fantasy_metrics`, `merge_csv_data`

Python floats are modelled as `ℚ`; Python's `round` (banker's rounding) as
`pyRoundInt` / `pyRound1`; Python's `int()` truncation as `ratTrunc`; a
`ZeroDivisionError` as `Option.none`.
-/

set_option maxHeartbeats 1000000

/-- Python's built-in `round(x)` on a real value, modelled on `ℚ`:
round half to even (banker's rounding), returning an integer. -/
def pyRoundInt (q : ℚ) : ℤ :=
  let f : ℤ := ⌊q⌋
  if q - f < 1/2 then f
  else if 1/2 < q - f then f + 1
  else if f % 2 = 0 then f else f + 1

/-- Python's `round(x, 0)`: same value as `pyRoundInt`, kept as a number. -/
def pyRound0 (q : ℚ) : ℚ := (pyRoundInt q : ℚ)

/-- Python's `round(x, 1)`: round to one decimal place (half to even). -/
def pyRound1 (q : ℚ) : ℚ := (pyRoundInt (q * 10) : ℚ) / 10

/-- Python's `int(x)` on a float: truncation toward zero. -/
def ratTrunc (q : ℚ) : ℤ := if 0 ≤ q then ⌊q⌋ else -⌊-q⌋

/-- Arithmetic mean of a list of rationals (`sum(xs) / len(xs)` in Python);
`0` on the empty list, where Python would raise (never reached by the code
we model, which guards `len >= 3`). -/
def listMean (xs : List ℚ) : ℚ := xs.sum / (xs.length : ℚ)


/-!
## Price model — `src/afl_complete_processor.py`

`calculate_price_change` (lines 252–293), `calculate_disposals` (301–303).
-/

/-- Round-specific magic numbers (`self.magic_numbers` with
`.get(round_num, 9736)` lookup, shared by both price files). -/
def magicNumber (round_num : ℕ) : ℚ :=
  if round_num = 23 then 9736
  else if round_num = 22 then 9750
  else if round_num = 21 then 9800
  else 9736

/-- The 5-entry score window built inside `calculate_price_change` from the
already-filtered valid scores: pad with the mean (computed once) when short,
take the first five when long. -/
def pcWindow (valid : List ℚ) : List ℚ :=
  if valid.length < 5 then valid ++ List.replicate (5 - valid.length) (listMean valid)
  else if valid.length > 5 then valid.take 5
  else valid

/-- `calculate_price_change(old_price, scores, round_num)` from
`afl_complete_processor.py`: filter out non-positive scores, no-op when fewer
than three remain, otherwise build the 5-entry window, apply the weights
`0.083, 0.067, 0.050, 0.033, 0.017`, and return
`round(0.75 * old_price + magic_number * weighted_sum, 0)`. -/
def calculate_price_change (old_price : ℚ) (scores : List ℚ) (round_num : ℕ) : ℚ :=
  let valid_scores := scores.filter (fun s => 0 < s)
  if valid_scores.length < 3 then old_price
  else
    let v := pcWindow valid_scores
    let weighted_sum := (83/1000) * v.getD 0 0 + (67/1000) * v.getD 1 0
      + (50/1000) * v.getD 2 0 + (33/1000) * v.getD 3 0 + (17/1000) * v.getD 4 0
    pyRound0 ((3/4) * old_price + magicNumber round_num * weighted_sum)

/-- `calculate_disposals(kicks, handballs)`: disposals = kicks + handballs. -/
def calculate_disposals (kicks handballs : ℚ) : ℚ := kicks + handballs

/-!
## Break-even model — `src/correct_breakeven_formula.py`

`calculate_breakeven_score` (lines 39–71) and
`calculate_price_change_from_breakeven` (lines 73–113).
-/

/-- `self.round_weights = [0.083, 0.067, 0.050, 0.033, 0.017]`. -/
def round_weights : List ℚ := [83/1000, 67/1000, 50/1000, 33/1000, 17/1000]

/-- The `while len(scores) < 5: scores.append(sum(scores)/len(scores))`
padding loop of `calculate_breakeven_score`; the mean is recomputed on each
iteration, exactly as in the source. -/
def padToFive (xs : List ℚ) : List ℚ :=
  if xs.length < 5 then padToFive (xs ++ [listMean xs]) else xs
termination_by 5 - xs.length
decreasing_by simp [List.length_append]; omega

/-- The five window entries actually consumed by `calculate_breakeven_score`
(its `zip` against the five weights truncates the padded list to five). -/
def beWindow (xs : List ℚ) : List ℚ := (padToFive xs).take 5

/-- `calculate_breakeven_score(current_price, recent_scores, round_num)`:
returns `0` when fewer than three raw scores are supplied; otherwise pads the
raw scores (no positivity filter) to five, zips them with the weights, and
returns the weighted sum rounded to one decimal.  The source's
`price_factor` / `adjusted_magic` locals are dead code and do not affect the
result. -/
def calculate_breakeven_score (current_price : ℚ) (recent_scores : List ℚ)
    (round_num : ℕ) : ℚ :=
  if recent_scores.length < 3 then 0
  else
    let scores := padToFive recent_scores
    let weighted_avg := (List.zipWith (fun s w => s * w) scores round_weights).sum
    pyRound1 weighted_avg

/-- `calculate_price_change_from_breakeven(current_price, actual_score,
breakeven_score)`: $300 per point of score difference, tier factors by current
price, deterministic zeroing of small protected changes (the
`protection_chance = 0.4` local is never sampled), $200,000 floor, rounded to
the nearest dollar. -/
def calculate_price_change_from_breakeven (current_price actual_score
    breakeven_score : ℚ) : ℚ :=
  let score_difference := actual_score - breakeven_score
  let base_change := score_difference * 300
  let adjustment_factor :=
    if current_price < 300000 then
      (if 0 < base_change then (14/10 : ℚ) else 7/10)
    else if 1300000 < current_price then
      (if 0 < base_change then (6/10 : ℚ) else 12/10)
    else 1
  let adjusted_change := base_change * adjustment_factor
  let adjusted_change :=
    if |score_difference| ≤ 10 ∧ |adjusted_change| < 15000 then 0
    else adjusted_change
  let new_price := max (current_price + adjusted_change) 200000
  pyRound0 new_price

/-!
## DVP ratings — `src/attached_assets/dvp_analysis_1760666088962.py`

`create_dvp_team_ratings` (lines 109–139) and
`calculate_player_dvp_ratings` (lines 141–199).
-/

/-- The rating a team receives in `create_dvp_team_ratings` when it sits at
sorted index `i` among `n` eligible teams (ascending by average points
allowed): `max(1, min(10, int((i / (len(team_avgs) - 1)) * 9) + 1))`.
When `n = 1` the Python expression `i / (len(team_avgs) - 1)` is `0 / 0` and
raises `ZeroDivisionError`, modelled as `none`. -/
def dvpTeamRating (n i : ℕ) : Option ℤ :=
  if n = 1 then none
  else some (max 1 (min 10 (ratTrunc (((i : ℚ) / ((n : ℚ) - 1)) * 9) + 1)))

/-- The per-matchup player rating of `calculate_player_dvp_ratings`, as a
function of the player's average points `avg`, games played `gm` and
coefficient of variation `cv = std / mean` of the game scores (`cv ≥ 0`
whenever produced by the source, since `np.std ≥ 0` and the guard requires
`mean > 0`; the "fewer than two game scores" path sets the consistency score
to `0`, which is the value this function takes at `cv = 1/2`):
`consistency = max(0, 1 - cv/0.5)`, `base = min(10, max(1, avg/10))`,
`sample = min(1.2, gm/5) if gm > 0 else 0.5`,
`final = round(max(1, min(10, base * sample * (0.8 + consistency * 0.4))), 1)`. -/
def playerDvpRating (avg gm cv : ℚ) : ℚ :=
  let consistency_score := max 0 (1 - cv / (1/2))
  let base_rating := min 10 (max 1 (avg / 10))
  let sample_adjustment := if 0 < gm then min (12/10) (gm / 5) else 1/2
  let consistency_adjustment := 8/10 + consistency_score * (4/10)
  let final_rating := base_rating * sample_adjustment * consistency_adjustment
  pyRound1 (max 1 (min 10 final_rating))

/-!
## Stats consolidation — `src/scrapers/create_master_stats.py`

Per-player effect of `merge_fantasy_metrics` (lines 127–151) and of the CBA
part of `merge_csv_data` (lines 235–259) on a matched master record.
-/

/-- The slice of a master-stats record touched by the merge steps we model:
the three fantasy-metrics fields, the CBA percentage, and the provenance
list `data_sources`. -/
structure Profile where
  ownership_percentage : ℚ
  consistency_rating : ℚ
  points_per_minute : ℚ
  cba_percentage : ℚ
  data_sources : List String
deriving Repr, DecidableEq

/-- One record of the fantasy-metrics input (`own`, `con`, `ppm` fields). -/
structure MetricsRecord where
  own : ℚ
  con : ℚ
  ppm : ℚ
deriving Repr, DecidableEq

/-- Effect of `merge_fantasy_metrics` on a matched player's record: update
the three metric fields and append `'fantasy_metrics'` to `data_sources`
unconditionally (the source has no membership check here). -/
def merge_fantasy_metrics_player (rec : Profile) (m : MetricsRecord) : Profile :=
  { rec with
    ownership_percentage := m.own * 100
    consistency_rating := m.con * 100
    points_per_minute := m.ppm
    data_sources := rec.data_sources ++ ["fantasy_metrics"] }

/-- Effect of the CBA section of `merge_csv_data` on a matched player's
record: set `cba_percentage` and append `'csv_cba'` to `data_sources` only
if it is not already present. -/
def merge_csv_cba_player (rec : Profile) (cba : ℚ) : Profile :=
  { rec with
    cba_percentage := cba
    data_sources :=
      if "csv_cba" ∈ rec.data_sources then rec.data_sources
      else rec.data_sources ++ ["csv_cba"] }

/-!
## Claim-side definitions

Definitions transcribed from the spec's words (not from the source), used
only to compare spec against code.
-/

/-- Claimed team rating (spec wording for C1):
`clamp(1, 10, round((i / (n - 1)) * 9) + 1)`, with the `n = 1` case defined
to be `1`. -/
def dvpTeamRatingClaimed (n i : ℕ) : ℤ :=
  if n = 1 then 1
  else max 1 (min 10 (pyRoundInt (((i : ℚ) / ((n : ℚ) - 1)) * 9) + 1))

/-- Claimed break-even computation (spec wording for C5): discard scores
`≤ 0`, pad with the mean of the remaining scores to five entries, truncate to
the first five, and return the weighted sum rounded to one decimal. -/
def breakevenClaimed (recent_scores : List ℚ) : ℚ :=
  let valid := recent_scores.filter (fun s => 0 < s)
  let window := (valid ++ List.replicate (5 - valid.length) (listMean valid)).take 5
  pyRound1 ((List.zipWith (fun s w => s * w) window round_weights).sum)

/-- Claimed adjusted price change (spec wording for C3): base change
`(actualScore - breakEvenScore) * 300`, tier factor `1.4 / 0.7` below
$300k, `0.6 / 1.2` above $1.3M, `1.0` otherwise, and deterministic zeroing
when `|scoreDifference| ≤ 10` and the adjusted magnitude is under $15,000. -/
def specAdjustedChange (currentPrice actualScore breakEvenScore : ℚ) : ℚ :=
  let baseChange := (actualScore - breakEvenScore) * 300
  let factor :=
    if currentPrice < 300000 then
      (if 0 < baseChange then (14/10 : ℚ) else 7/10)
    else if 1300000 < currentPrice then
      (if 0 < baseChange then (6/10 : ℚ) else 12/10)
    else 1
  let adjusted := baseChange * factor
  if |actualScore - breakEvenScore| ≤ 10 ∧ |adjusted| < 15000 then 0
  else adjusted


/-!
## Lemmas about the rounding helpers and the mean
-/

theorem pyRoundInt_ge_floor (q : ℚ) : ⌊q⌋ ≤ pyRoundInt q := by
  unfold pyRoundInt
  dsimp only
  split
  · exact le_refl _
  · split
    · exact le_of_lt (lt_add_one _)
    · split
      · exact le_refl _
      · exact le_of_lt (lt_add_one _)

theorem pyRoundInt_le_floor_add_one (q : ℚ) : pyRoundInt q ≤ ⌊q⌋ + 1 := by
  unfold pyRoundInt
  dsimp only
  split
  · exact le_of_lt (lt_add_one _)
  · split
    · exact le_refl _
    · split
      · exact le_of_lt (lt_add_one _)
      · exact le_refl _

theorem le_pyRoundInt {n : ℤ} {q : ℚ} (h : (n : ℚ) ≤ q) : n ≤ pyRoundInt q :=
  le_trans (Int.le_floor.mpr h) (pyRoundInt_ge_floor q)

theorem pyRoundInt_le {q : ℚ} {n : ℤ} (h : q ≤ (n : ℚ)) : pyRoundInt q ≤ n := by
  have hfl : ⌊q⌋ ≤ n := by
    calc ⌊q⌋ ≤ ⌊(n : ℚ)⌋ := Int.floor_le_floor h
    _ = n := Int.floor_intCast n
  rcases lt_or_eq_of_le hfl with hlt | heq
  · exact le_trans (pyRoundInt_le_floor_add_one q) (by omega)
  · have hq : q - (⌊q⌋ : ℚ) ≤ 0 := by
      have : q ≤ (⌊q⌋ : ℚ) := by rw [heq]; exact h
      linarith
    unfold pyRoundInt
    dsimp only
    rw [if_pos (by linarith)]
    exact hfl

theorem pyRoundInt_intCast (k : ℤ) : pyRoundInt (k : ℚ) = k := by
  unfold pyRoundInt
  dsimp only
  rw [Int.floor_intCast]
  rw [if_pos (by simp)]

theorem ratTrunc_eq_floor {q : ℚ} (h : 0 ≤ q) : ratTrunc q = ⌊q⌋ := by
  unfold ratTrunc
  exact if_pos h

/-- Appending the mean of a list to the list leaves the mean unchanged. -/
theorem listMean_append_mean (xs : List ℚ) :
    listMean (xs ++ [listMean xs]) = listMean xs := by
  rcases xs.eq_nil_or_concat.symm with h | rfl
  case inr =>
    simp [listMean]
  case inl =>
    have hne : xs ≠ [] := by
      rcases h with ⟨l, a, rfl⟩
      simp
    have hlen : (0 : ℚ) < (xs.length : ℚ) := by
      have : 0 < xs.length := List.length_pos.mpr hne
      exact_mod_cast this
    unfold listMean
    have hlen1 : ((xs ++ [xs.sum / (xs.length : ℚ)]).length : ℚ)
        = (xs.length : ℚ) + 1 := by
      simp
    rw [List.sum_append, hlen1]
    simp only [List.sum_cons, List.sum_nil, add_zero]
    field_simp
    ring
/-!
## Structural lemmas about the padding loop and the windows
-/

/-- The recomputed-mean padding loop is the same as padding with the mean of
the original list: appending the mean never changes the mean. -/
theorem padToFive_eq (xs : List ℚ) :
    padToFive xs = xs ++ List.replicate (5 - xs.length) (listMean xs) := by
  induction xs using padToFive.induct with
  | case1 xs hlt ih =>
    rw [padToFive, if_pos hlt, ih, listMean_append_mean]
    have h5 : 5 - xs.length = (5 - (xs ++ [listMean xs]).length) + 1 := by
      simp only [List.length_append, List.length_cons, List.length_nil]
      omega
    rw [h5, List.append_assoc]
    simp [List.replicate_succ]
  | case2 xs hge =>
    rw [padToFive, if_neg hge]
    have h0 : 5 - xs.length = 0 := by omega
    rw [h0]
    simp

theorem padToFive_length (xs : List ℚ) :
    (padToFive xs).length = max 5 xs.length := by
  rw [padToFive_eq]
  simp only [List.length_append, List.length_replicate]
  omega

theorem beWindow_length (xs : List ℚ) : (beWindow xs).length = 5 := by
  rw [beWindow, List.length_take, padToFive_length]
  omega

theorem beWindow_eq (xs : List ℚ) :
    beWindow xs = xs.take 5 ++ List.replicate (5 - xs.length) (listMean xs) := by
  rw [beWindow, padToFive_eq]
  rcases le_or_lt xs.length 5 with h | h
  · rw [List.take_append_eq_append_take]
    congr 1
    rw [List.take_replicate]
    congr 1
    omega
  · have h0 : 5 - xs.length = 0 := by omega
    rw [h0]
    simp

theorem padToFive_mem {xs : List ℚ} {e : ℚ} (h : e ∈ padToFive xs) :
    e ∈ xs ∨ e = listMean xs := by
  rw [padToFive_eq] at h
  rcases List.mem_append.mp h with h | h
  · exact Or.inl h
  · exact Or.inr (List.eq_of_mem_replicate h)

theorem beWindow_mem {xs : List ℚ} {e : ℚ} (h : e ∈ beWindow xs) :
    e ∈ xs ∨ e = listMean xs :=
  padToFive_mem (((padToFive xs).take_sublist 5).mem h)

/-- `zip` against a list of weights only consumes the first
`ws.length` entries of the score list. -/
theorem zipWith_take_length (f : ℚ → ℚ → ℚ) :
    ∀ (ws xs : List ℚ), List.zipWith f xs ws = List.zipWith f (xs.take ws.length) ws := by
  intro ws
  induction ws with
  | nil => intro xs; simp
  | cons w ws ih =>
    intro xs
    cases xs with
    | nil => simp
    | cons x xs =>
      simp only [List.zipWith_cons_cons, List.length_cons, List.take_succ_cons]
      rw [← ih]

theorem calculate_breakeven_score_eq_window (current_price : ℚ)
    (recent_scores : List ℚ) (round_num : ℕ) (h : 3 ≤ recent_scores.length) :
    calculate_breakeven_score current_price recent_scores round_num
      = pyRound1 ((List.zipWith (fun s w => s * w) (beWindow recent_scores)
          round_weights).sum) := by
  rw [calculate_breakeven_score, if_neg (by omega)]
  dsimp only
  rw [beWindow]
  have h5 : round_weights.length = 5 := by rfl
  rw [zipWith_take_length (fun s w => s * w) round_weights (padToFive recent_scores), h5]

theorem pcWindow_length (l : List ℚ) : (pcWindow l).length = 5 := by
  rw [pcWindow]
  rcases lt_trichotomy l.length 5 with h | h | h
  · rw [if_pos h]
    simp only [List.length_append, List.length_replicate]
    omega
  · rw [if_neg (by omega), if_neg (by omega)]
    exact h
  · rw [if_neg (by omega), if_pos (by omega)]
    rw [List.length_take]
    omega

theorem pcWindow_mem {l : List ℚ} {e : ℚ} (h : e ∈ pcWindow l) :
    e ∈ l ∨ e = listMean l := by
  rw [pcWindow] at h
  split at h
  · rcases List.mem_append.mp h with h | h
    · exact Or.inl h
    · exact Or.inr (List.eq_of_mem_replicate h)
  · split at h
    · exact Or.inl ((l.take_sublist 5).mem h)
    · exact Or.inl h

/-!
## Claim theorems
-/

/-- Claim C9: `disposals(kicks, handballs) = kicks + handballs`, and in
particular `disposals(12.5, 8.3) = 20.8` exactly. -/
theorem disposals_is_sum_and_example :
    (∀ kicks handballs : ℚ, calculate_disposals kicks handballs = kicks + handballs)
    ∧ calculate_disposals (25/2) (83/10) = 104/5 := by
  constructor
  · intro kicks handballs
    rfl
  · norm_num [calculate_disposals]

/-- Claim C6: with fewer than three valid (`> 0`) scores,
`calculate_price_change` returns the old price unchanged — a defined no-op,
not a failure. -/
theorem price_change_noop_on_insufficient_scores (old_price : ℚ)
    (scores : List ℚ) (round_num : ℕ)
    (h : (scores.filter (fun s => 0 < s)).length < 3) :
    calculate_price_change old_price scores round_num = old_price := by
  rw [calculate_price_change]
  dsimp only
  rw [if_pos h]

/-- Witness for C6 at `old_price = 500000`, `scores = [50, 0, -3]`. -/
theorem price_change_noop_on_insufficient_scores_witness :
    ((([50, 0, -3] : List ℚ).filter (fun s => 0 < s)).length < 3)
    ∧ calculate_price_change 500000 [50, 0, -3] 23 = 500000 :=
  ⟨by decide, price_change_noop_on_insufficient_scores 500000 [50, 0, -3] 23 (by decide)⟩

/-- Claim C10: with fewer than three raw entries in the recent-scores list,
`calculate_breakeven_score` returns `0` (not a weighted sum, not the current
price, not an error). -/
theorem breakeven_zero_on_short_input (current_price : ℚ)
    (recent_scores : List ℚ) (round_num : ℕ) (h : recent_scores.length < 3) :
    calculate_breakeven_score current_price recent_scores round_num = 0 := by
  rw [calculate_breakeven_score, if_pos h]

/-- Witness for C10 at `current_price = 600000`, `recent_scores = [80, 90]`. -/
theorem breakeven_zero_on_short_input_witness :
    (([80, 90] : List ℚ).length < 3)
    ∧ calculate_breakeven_score 600000 [80, 90] 23 = 0 :=
  ⟨by decide, breakeven_zero_on_short_input 600000 [80, 90] 23 (by decide)⟩

/-- Counterexample to claim C4: on `(800000, [85, 92, 78, 88, 95], 23)` the
code returns exactly `810668`, not approximately `810782` — the spec's
product `9736 × 21.638 = 210781.97` is a miscalculation
(`9736 × 21.638 = 210667.568`). -/
theorem price_change_example_value_counterexample :
    calculate_price_change 800000 [85, 92, 78, 88, 95] 23 = 810668
    ∧ (810668 : ℚ) ≠ 810782 := by
  constructor
  · norm_num [calculate_price_change, pcWindow, listMean, magicNumber, pyRound0,
      pyRoundInt, List.filter, Int.floor_eq_iff]
  · norm_num

/-- Claim C4 amended: the weighted sum of the window is `21.638`, the magic
number for round 23 is `9736`, and the result is
`round(0.75 × 800000 + 9736 × 21.638) = round(810667.568) = 810668`. -/
theorem price_change_example_value_amended :
    calculate_price_change 800000 [85, 92, 78, 88, 95] 23
      = pyRound0 ((3/4) * 800000 + 9736 * (21638/1000))
    ∧ ((83/1000) * 85 + (67/1000) * 92 + (50/1000) * 78 + (33/1000) * 88
        + (17/1000) * 95 : ℚ) = 21638/1000
    ∧ magicNumber 23 = 9736
    ∧ pyRound0 ((3/4) * 800000 + 9736 * (21638/1000)) = 810668 := by
  refine ⟨?_, by norm_num, by norm_num [magicNumber], ?_⟩
  · norm_num [calculate_price_change, pcWindow, listMean, magicNumber, pyRound0,
      pyRoundInt, List.filter, Int.floor_eq_iff]
  · norm_num [pyRound0, pyRoundInt, Int.floor_eq_iff]

/-- Counterexample to claim C5: `calculate_breakeven_score` does not discard
non-positive scores.  On `[0, 100, 100, 100]` the code pads the raw list to
`[0, 100, 100, 100, 75]` and returns `16.3`, while the claimed
filter-then-pad computation gives `25.0`. -/
theorem breakeven_window_matches_claim_counterexample :
    calculate_breakeven_score 500000 [0, 100, 100, 100] 23 = 163/10
    ∧ breakevenClaimed [0, 100, 100, 100] = 25
    ∧ (163/10 : ℚ) ≠ 25 := by
  refine ⟨?_, ?_, by norm_num⟩
  · rw [calculate_breakeven_score]
    rw [padToFive, padToFive]
    norm_num [listMean, round_weights, pyRound1, pyRoundInt, Int.floor_eq_iff]
  · norm_num [breakevenClaimed, List.filter, List.replicate, List.zipWith, listMean,
      round_weights, pyRound1, pyRoundInt, Int.floor_eq_iff]

/-- Claim C5 amended: for at least three raw scores,
`calculate_breakeven_score` builds its 5-entry window from the *raw*
recent-scores list — no positivity filter — taking the first five and padding
with the mean of the raw scores when short, and returns the weighted sum of
that window under the weights `[0.083, 0.067, 0.050, 0.033, 0.017]`, rounded
to one decimal. -/
theorem breakeven_window_amended (current_price : ℚ) (recent_scores : List ℚ)
    (round_num : ℕ) (h : 3 ≤ recent_scores.length) :
    beWindow recent_scores
      = recent_scores.take 5
        ++ List.replicate (5 - recent_scores.length) (listMean recent_scores)
    ∧ calculate_breakeven_score current_price recent_scores round_num
      = pyRound1 ((List.zipWith (fun s w => s * w) (beWindow recent_scores)
          round_weights).sum) :=
  ⟨beWindow_eq recent_scores,
   calculate_breakeven_score_eq_window current_price recent_scores round_num h⟩

/-- Witness for the amended C5 at `current_price = 450000`,
`recent_scores = [60, 70, 80]`, `round_num = 22`. -/
theorem breakeven_window_amended_witness :
    (3 ≤ ([60, 70, 80] : List ℚ).length)
    ∧ (beWindow [60, 70, 80]
        = ([60, 70, 80] : List ℚ).take 5
          ++ List.replicate (5 - ([60, 70, 80] : List ℚ).length)
              (listMean [60, 70, 80])
      ∧ calculate_breakeven_score 450000 [60, 70, 80] 22
        = pyRound1 ((List.zipWith (fun s w => s * w) (beWindow [60, 70, 80])
            round_weights).sum)) :=
  ⟨by decide, breakeven_window_amended 450000 [60, 70, 80] 22 (by decide)⟩

/-- Counterexample to claim C7: the window built by
`calculate_breakeven_score` for the input `[0, 10, 10]` contains the entry
`0`, which is neither a valid (`> 0`) input score nor the mean of the valid
input scores (which is `10`). -/
theorem window_entries_counterexample :
    (0 : ℚ) ∈ beWindow [0, 10, 10]
    ∧ ¬((0 : ℚ) ∈ ([0, 10, 10] : List ℚ).filter (fun s => 0 < s)
        ∨ (0 : ℚ) = listMean (([0, 10, 10] : List ℚ).filter (fun s => 0 < s))) := by
  constructor
  · rw [beWindow_eq]
    simp
  · norm_num [List.filter, listMean]

/-- Claim C7 amended: every window built by `calculate_price_change` has
length 5 and entries drawn from the valid (`> 0`) input scores or their mean;
every window built by `calculate_breakeven_score` has length 5 and entries
drawn from the *raw* input scores or their mean (that function applies no
positivity filter). -/
theorem window_entries_amended :
    (∀ scores : List ℚ,
      (pcWindow (scores.filter (fun s => 0 < s))).length = 5
      ∧ ∀ e ∈ pcWindow (scores.filter (fun s => 0 < s)),
          (e ∈ scores ∧ 0 < e)
          ∨ e = listMean (scores.filter (fun s => 0 < s)))
    ∧ (∀ xs : List ℚ,
        (beWindow xs).length = 5
        ∧ ∀ e ∈ beWindow xs, e ∈ xs ∨ e = listMean xs) := by
  constructor
  · intro scores
    refine ⟨pcWindow_length _, ?_⟩
    intro e he
    rcases pcWindow_mem he with h | h
    · left
      have := List.mem_filter.mp h
      refine ⟨this.1, ?_⟩
      have hb := this.2
      simpa using hb
    · right
      exact h
  · intro xs
    exact ⟨beWindow_length xs, fun e he => beWindow_mem he⟩

/-- Witness for the amended C7 at `scores = [70, 80, 90]`, entry `70`. -/
theorem window_entries_amended_witness :
    ((70 : ℚ) ∈ pcWindow (([70, 80, 90] : List ℚ).filter (fun s => 0 < s)))
    ∧ (((70 : ℚ) ∈ ([70, 80, 90] : List ℚ) ∧ (0 : ℚ) < 70)
        ∨ (70 : ℚ) = listMean (([70, 80, 90] : List ℚ).filter (fun s => 0 < s))) := by
  have hm : (70 : ℚ) ∈ pcWindow (([70, 80, 90] : List ℚ).filter (fun s => 0 < s)) := by
    norm_num [pcWindow, List.filter, listMean]
  exact ⟨hm, (window_entries_amended.1 [70, 80, 90]).2 70 hm⟩

/-- Counterexample to claim C1: the code truncates with `int(...)` instead of
rounding, and it divides by zero when only one team is eligible.  With
`n = 6` eligible teams, the team at sorted index `i = 2` gets
`int((2/5)*9) + 1 = int(3.6) + 1 = 4` from the code but
`round(3.6) + 1 = 5` from the claimed formula; with `n = 1` the code raises
`ZeroDivisionError` (modelled `none`) where the claim promises rating `1`. -/
theorem dvp_team_rating_formula_counterexample :
    dvpTeamRating 6 2 = some 4 ∧ dvpTeamRatingClaimed 6 2 = 5
    ∧ dvpTeamRating 1 0 = none ∧ dvpTeamRatingClaimed 1 0 = 1 := by
  refine ⟨?_, ?_, ?_, ?_⟩
  · norm_num [dvpTeamRating, ratTrunc, Int.floor_eq_iff]
  · norm_num [dvpTeamRatingClaimed, pyRoundInt, Int.floor_eq_iff]
  · norm_num [dvpTeamRating]
  · norm_num [dvpTeamRatingClaimed]

/-- Claim C1 amended: for `n ≥ 2` eligible teams the team at sorted index `i`
receives `clamp(1, 10, trunc((i / (n - 1)) * 9) + 1)` — truncation toward
zero (here equal to the floor), not rounding to nearest; when `n = 1` the
code raises `ZeroDivisionError` instead of producing a rating. -/
theorem dvp_team_rating_formula_amended :
    (∀ n i : ℕ, 2 ≤ n →
      dvpTeamRating n i
        = some (max 1 (min 10 (⌊((i : ℚ) / ((n : ℚ) - 1)) * 9⌋ + 1))))
    ∧ ∀ i : ℕ, dvpTeamRating 1 i = none := by
  constructor
  · intro n i hn
    rw [dvpTeamRating, if_neg (by omega)]
    have hnn : (0 : ℚ) ≤ ((i : ℚ) / ((n : ℚ) - 1)) * 9 := by
      apply mul_nonneg _ (by norm_num)
      apply div_nonneg (by positivity)
      have : (2 : ℚ) ≤ (n : ℚ) := by exact_mod_cast hn
      linarith
    rw [ratTrunc_eq_floor hnn]
  · intro i
    rw [dvpTeamRating, if_pos rfl]

/-- Witness for the amended C1 at `n = 6`, `i = 2`. -/
theorem dvp_team_rating_formula_amended_witness :
    (2 ≤ 6)
    ∧ dvpTeamRating 6 2
      = some (max 1 (min 10 (⌊((2 : ℚ) / ((6 : ℚ) - 1)) * 9⌋ + 1))) :=
  ⟨by decide, dvp_team_rating_formula_amended.1 6 2 (by decide)⟩

/-- Claim C8: every team defense rating the DVP engine produces is an integer
in `[1, 10]`, and every player matchup rating is a one-decimal value in
`[1, 10]` (for any average, games-played and coefficient-of-variation
inputs). -/
theorem dvp_ratings_bounded :
    (∀ (n i : ℕ) (r : ℤ), dvpTeamRating n i = some r → 1 ≤ r ∧ r ≤ 10)
    ∧ (∀ avg gm cv : ℚ,
        (1 ≤ playerDvpRating avg gm cv ∧ playerDvpRating avg gm cv ≤ 10)
        ∧ ∃ k : ℤ, playerDvpRating avg gm cv = (k : ℚ) / 10) := by
  constructor
  · intro n i r h
    rw [dvpTeamRating] at h
    by_cases hn : n = 1
    · rw [if_pos hn] at h
      exact absurd h (by simp)
    · rw [if_neg hn] at h
      have hr : r = max 1 (min 10 (ratTrunc (((i : ℚ) / ((n : ℚ) - 1)) * 9) + 1)) :=
        (Option.some_inj.mp h).symm
      constructor
      · rw [hr]
        exact le_max_left _ _
      · rw [hr]
        exact max_le (by norm_num) (min_le_left _ _)
  · intro avg gm cv
    simp only [playerDvpRating]
    set t : ℚ := max 1 (min 10 (min 10 (max 1 (avg / 10))
      * (if 0 < gm then min (12/10) (gm / 5) else 1/2)
      * (8/10 + max 0 (1 - cv / (1/2)) * (4/10)))) with ht
    have h1 : (1 : ℚ) ≤ t := le_max_left _ _
    have h10 : t ≤ 10 := max_le (by norm_num) (min_le_left _ _)
    have hlo : (10 : ℤ) ≤ pyRoundInt (t * 10) := by
      apply le_pyRoundInt
      push_cast
      linarith
    have hhi : pyRoundInt (t * 10) ≤ (100 : ℤ) := by
      apply pyRoundInt_le
      push_cast
      linarith
    have hlo' : (10 : ℚ) ≤ (pyRoundInt (t * 10) : ℚ) := by exact_mod_cast hlo
    have hhi' : ((pyRoundInt (t * 10) : ℚ)) ≤ 100 := by exact_mod_cast hhi
    refine ⟨⟨?_, ?_⟩, ⟨pyRoundInt (t * 10), rfl⟩⟩
    · rw [pyRound1]
      linarith
    · rw [pyRound1]
      linarith

/-- Witness for C8: the team at index 2 of 6 (rating 4) and a player with
average 85, 10 games and coefficient of variation 0.3. -/
theorem dvp_ratings_bounded_witness :
    (dvpTeamRating 6 2 = some 4 ∧ (1 ≤ (4 : ℤ) ∧ (4 : ℤ) ≤ 10))
    ∧ ((1 ≤ playerDvpRating 85 10 (3/10) ∧ playerDvpRating 85 10 (3/10) ≤ 10)
        ∧ ∃ k : ℤ, playerDvpRating 85 10 (3/10) = (k : ℚ) / 10) := by
  have h : dvpTeamRating 6 2 = some 4 := by
    norm_num [dvpTeamRating, ratTrunc, Int.floor_eq_iff]
  exact ⟨⟨h, dvp_ratings_bounded.1 6 2 4 h⟩, dvp_ratings_bounded.2 85 10 (3/10)⟩

/-- On integer inputs the spec-side adjusted change is an integer: each tier
factor turns the $300-per-point base change into a multiple of
`420 / 210 / 180 / 360 / 300` dollars, and the protection branch yields `0`. -/
theorem specAdjustedChange_int (cp a be : ℤ) :
    ∃ k : ℤ, specAdjustedChange (cp : ℚ) (a : ℚ) (be : ℚ) = (k : ℚ) := by
  simp only [specAdjustedChange]
  split_ifs
  all_goals
    first
    | (refine ⟨0, ?_⟩; push_cast; ring1)
    | (refine ⟨(a - be) * 420, ?_⟩; push_cast; ring1)
    | (refine ⟨(a - be) * 210, ?_⟩; push_cast; ring1)
    | (refine ⟨(a - be) * 180, ?_⟩; push_cast; ring1)
    | (refine ⟨(a - be) * 360, ?_⟩; push_cast; ring1)
    | (refine ⟨(a - be) * 300, ?_⟩; push_cast; ring1)

/-- Claim C3: `calculate_price_change_from_breakeven` computes
`baseChange = (actualScore − breakEvenScore) × 300`, applies the tier factors
`1.4 / 0.7` (price below $300k), `0.6 / 1.2` (price above $1.3M), `1.0`
otherwise, deterministically zeroes the change when `|scoreDifference| ≤ 10`
and the adjusted magnitude is under $15,000 (the protection-probability
constant is never sampled), and returns
`max(currentPrice + adjustedChange, 200000)` — up to the final
round-to-nearest-dollar, which is the identity on integer inputs (second
conjunct). -/
theorem price_change_from_breakeven_formula :
    (∀ currentPrice actualScore breakEvenScore : ℚ,
      calculate_price_change_from_breakeven currentPrice actualScore breakEvenScore
        = pyRound0 (max
            (currentPrice + specAdjustedChange currentPrice actualScore breakEvenScore)
            200000))
    ∧ (∀ cp a be : ℤ,
      calculate_price_change_from_breakeven (cp : ℚ) (a : ℚ) (be : ℚ)
        = max ((cp : ℚ) + specAdjustedChange (cp : ℚ) (a : ℚ) (be : ℚ)) 200000) := by
  have hmain : ∀ currentPrice actualScore breakEvenScore : ℚ,
      calculate_price_change_from_breakeven currentPrice actualScore breakEvenScore
        = pyRound0 (max
            (currentPrice + specAdjustedChange currentPrice actualScore breakEvenScore)
            200000) := fun _ _ _ => rfl
  refine ⟨hmain, ?_⟩
  intro cp a be
  obtain ⟨k, hk⟩ := specAdjustedChange_int cp a be
  rw [hmain, hk]
  have hcast : (cp : ℚ) + (k : ℚ) = ((cp + k : ℤ) : ℚ) := by push_cast; ring
  rw [hcast]
  have hmax : max (((cp + k : ℤ) : ℚ)) (200000 : ℚ)
      = ((max (cp + k) 200000 : ℤ) : ℚ) := by
    rw [Int.cast_max]
    norm_num
  rw [hmax, pyRound0, pyRoundInt_intCast]

/-- Counterexample to claim C2: `merge_fantasy_metrics` appends its source
identifier unconditionally, so re-applying it with identical input grows the
provenance list from 2 entries to 3. -/
theorem consolidation_idempotence_counterexample :
    (merge_fantasy_metrics_player
        (merge_fantasy_metrics_player
          ⟨0, 0, 0, 0, ["player_data.json"]⟩ ⟨1/2, 4/5, 6/5⟩)
        ⟨1/2, 4/5, 6/5⟩).data_sources.length = 3
    ∧ (merge_fantasy_metrics_player
        ⟨0, 0, 0, 0, ["player_data.json"]⟩ ⟨1/2, 4/5, 6/5⟩).data_sources.length = 2 :=
  ⟨rfl, rfl⟩

/-- Claim C2 amended: the CSV merge (`merge_csv_data`) is idempotent — it
checks membership before appending `'csv_cba'` — while `merge_fantasy_metrics`
re-applied with identical input leaves every stat field unchanged but appends
a duplicate `'fantasy_metrics'` entry to the provenance list. -/
theorem consolidation_idempotence_amended :
    (∀ (rec : Profile) (cba : ℚ),
      merge_csv_cba_player (merge_csv_cba_player rec cba) cba
        = merge_csv_cba_player rec cba)
    ∧ (∀ (rec : Profile) (m : MetricsRecord),
      merge_fantasy_metrics_player (merge_fantasy_metrics_player rec m) m
        = { merge_fantasy_metrics_player rec m with
            data_sources :=
              (merge_fantasy_metrics_player rec m).data_sources
                ++ ["fantasy_metrics"] }) := by
  constructor
  · intro rec cba
    simp only [merge_csv_cba_player]
    by_cases h : "csv_cba" ∈ rec.data_sources
    · simp [h]
    · simp [h]
  · intro rec m
    rfl
